import Mathlib

/-!
Shallow embedding of `src/main.cpp` (the bkge-import_mesh flattener and
binary writer).  Floating-point values are never computed with — they are
copied bit-for-bit from the imported scene to the output file — so every
32-bit field (both `uint32_t` and IEEE-754 `float`) is modelled as an
opaque 32-bit word, a `Nat`.  The output byte stream is modelled as the
list of 4-byte words written, in order.  Narrowing conversions from
`size_t` to `uint32_t` and `uint32_t` wrap-around are modelled with an
explicit `% 2^32`.
-/

namespace ImportMesh

/-- Truncation to an unsigned 32-bit value, modelling both the implicit
`size_t → uint32_t` narrowing (main.cpp lines 123-124, 171, 213, 229, 241)
and `uint32_t` wrap-around arithmetic. -/
def u32 (n : Nat) : Nat := n % 4294967296

/-- A triple of 32-bit words, modelling `glm::vec3`, `aiVector3D` and
`aiColor3D`.  Float components are opaque bit patterns. -/
structure Vec3 where
  x : Nat
  y : Nat
  z : Nat
deriving DecidableEq

/-- The all-zero word triple (the bit pattern of `(0.0f, 0.0f, 0.0f)`). -/
def vec3zero : Vec3 := ⟨0, 0, 0⟩

/-- The `Vertex` struct of main.cpp lines 27-31. -/
structure Vertex where
  position : Vec3
  normal : Vec3
deriving DecidableEq

/-- The `Mesh` record of main.cpp lines 17-25. -/
structure Mesh where
  color : Vec3
  vertex_base : Nat
  vertex_count : Nat
  index_base : Nat
  index_count : Nat
deriving DecidableEq

/-- A default `Mesh`, used with `List.getD` in theorem statements. -/
def mesh0 : Mesh := ⟨vec3zero, 0, 0, 0, 0⟩

/-- An `aiFace`: the list of vertex references of one face
(`mIndices` / `mNumIndices`). -/
structure AiFace where
  mIndices : List Nat
deriving DecidableEq

/-- An `aiMesh` as consumed by the flattener: vertex positions
(`mVertices`, with `mNumVertices` the list length), face list and material
index.  Per-vertex normals and texture coordinates are read by main.cpp
lines 147-157 only to form pointers whose targets are never loaded, so
they are observationally irrelevant and omitted. -/
structure AiMesh where
  mVertices : List Vec3
  mFaces : List AiFace
  mMaterialIndex : Nat
deriving DecidableEq

/-- An `aiMaterial`, restricted to the only key the program queries:
`AI_MATKEY_COLOR_DIFFUSE` (present or absent). -/
structure AiMaterial where
  diffuse : Option Vec3
deriving DecidableEq

/-- An `aiScene` as consumed by the flattener. -/
structure AiScene where
  mMeshes : List AiMesh
  mMaterials : List AiMaterial
deriving DecidableEq

/-- Diffuse-colour resolution, main.cpp lines 128-134.  `ai_color` starts
as `{0,0,0}` and `aiMaterial::Get` leaves it untouched when the key is
absent, so an absent key yields black.  The raw array access
`p_scene->mMaterials[p_ai_mesh->mMaterialIndex]` has no bounds check: an
out-of-range material index is undefined behaviour, modelled as `none`. -/
def resolveColor (scene : AiScene) (am : AiMesh) : Option Vec3 :=
  match scene.mMaterials[am.mMaterialIndex]? with
  | none => none
  | some mat =>
    match mat.diffuse with
    | some c => some c
    | none => some vec3zero

/-- The vertex loop, main.cpp lines 140-168: one `Vertex` per source
vertex, position copied verbatim.  `Vertex vert;` never assigns `normal`,
which therefore holds the indeterminate contents of uninitialized memory,
modelled by the parameter `uninit`. -/
def loadVertices (uninit : Vec3) (am : AiMesh) : List Vertex :=
  am.mVertices.map (fun p => { position := p, normal := uninit })

/-- The face loop, main.cpp lines 174-186, returning the indices pushed to
the global pool and the final `index_count` accumulator.  A face is used
exactly when it has 3 vertex references (`mNumIndices != 3` ⇒ `continue`);
each used face pushes `index_base + mIndices[k]` (`uint32_t` addition) for
`k = 0,1,2` and adds 3 to the `uint32_t` counter. -/
def loadFaces (index_base : Nat) : List AiFace → List Nat × Nat
  | [] => ([], 0)
  | f :: rest =>
    let r := loadFaces index_base rest
    match f.mIndices with
    | [a, b, c] =>
      (u32 (index_base + a) :: u32 (index_base + b) :: u32 (index_base + c) :: r.1,
       u32 (r.2 + 3))
    | _ => r

/-- Number of faces with exactly 3 vertex references. -/
def triCount : List AiFace → Nat
  | [] => 0
  | f :: rest => (if f.mIndices.length = 3 then 1 else 0) + triCount rest

/-- Processing of one submesh, main.cpp lines 119-186 loop body.
`vertex_base` and the `Mesh.index_base` field are the pool sizes on entry
(lines 123-124); `vertex_count` is `mNumVertices` (line 126); the local
`index_base` of line 171 is taken AFTER the vertex loop and equals the
index-pool size — NOT the vertex-pool size claimed by the comment above
it.  Failure of the unchecked material access is propagated as `none`. -/
def flattenMesh (uninit : Vec3) (scene : AiScene) (am : AiMesh)
    (vertexes : List Vertex) (indexes : List Nat) :
    Option (Mesh × List Vertex × List Nat) :=
  match resolveColor scene am with
  | none => none
  | some color =>
    let vertex_base := u32 vertexes.length
    let mesh_index_base := u32 indexes.length
    let vertex_count := am.mVertices.length
    let vertexes2 := vertexes ++ loadVertices uninit am
    let index_base := u32 indexes.length
    let fl := loadFaces index_base am.mFaces
    some ({ color := color, vertex_base := vertex_base,
            vertex_count := vertex_count, index_base := mesh_index_base,
            index_count := fl.2 },
          vertexes2, indexes ++ fl.1)

/-- The mesh loop, main.cpp lines 119-187, threading the growing vertex
and index pools. -/
def flattenGo (uninit : Vec3) (scene : AiScene) :
    List AiMesh → List Vertex → List Nat →
    Option (List Mesh × List Vertex × List Nat)
  | [], vertexes, indexes => some ([], vertexes, indexes)
  | am :: rest, vertexes, indexes =>
    match flattenMesh uninit scene am vertexes indexes with
    | none => none
    | some (m, vertexes2, indexes2) =>
      match flattenGo uninit scene rest vertexes2 indexes2 with
      | none => none
      | some (ms, vfin, ifin) => some (m :: ms, vfin, ifin)

/-- The whole scene flattener: all three buffers start empty. -/
def flattenScene (uninit : Vec3) (scene : AiScene) :
    Option (List Mesh × List Vertex × List Nat) :=
  flattenGo uninit scene scene.mMeshes [] []

/-- One mesh record as written, main.cpp lines 216-224: colour triple then
the four `uint32_t` fields. -/
def writeMesh (m : Mesh) : List Nat :=
  [m.color.x, m.color.y, m.color.z,
   m.vertex_base, m.vertex_count, m.index_base, m.index_count]

/-- One vertex record as written, main.cpp lines 232-236: position then
normal. -/
def writeVertex (v : Vertex) : List Nat :=
  [v.position.x, v.position.y, v.position.z,
   v.normal.x, v.normal.y, v.normal.z]

/-- The binary writer, main.cpp lines 211-245: mesh count then mesh
records, vertex count then vertex records, index count then indices.  Each
count is the vector size narrowed to `uint32_t`. -/
def writeOutput (meshes : List Mesh) (vertexes : List Vertex)
    (indexes : List Nat) : List Nat :=
  u32 meshes.length :: (meshes.map writeMesh).flatten ++
  u32 vertexes.length :: (vertexes.map writeVertex).flatten ++
  u32 indexes.length :: indexes

/-- Modelled from the spec: read one unsigned 32-bit value from the
stream, per the documented layout of §6 (the reader itself is not part of
src/, only the layout it must follow is). -/
def readU32 : List Nat → Option (Nat × List Nat)
  | [] => none
  | w :: rest => some (w, rest)

/-- Modelled from the spec: read one mesh record per the documented
layout — colour r,g,b then vertex_base, vertex_count, index_base,
index_count. -/
def readMesh : List Nat → Option (Mesh × List Nat)
  | r :: g :: b :: vb :: vc :: ib :: ic :: rest =>
    some ({ color := ⟨r, g, b⟩, vertex_base := vb, vertex_count := vc,
            index_base := ib, index_count := ic }, rest)
  | _ => none

/-- Modelled from the spec: read one vertex record per the documented
layout — position x,y,z then normal x,y,z. -/
def readVertex : List Nat → Option (Vertex × List Nat)
  | px :: py :: pz :: nx :: ny :: nz :: rest =>
    some ({ position := ⟨px, py, pz⟩, normal := ⟨nx, ny, nz⟩ }, rest)
  | _ => none

/-- Read `n` records with the given record reader. -/
def readList {α : Type} (rd : List Nat → Option (α × List Nat)) :
    Nat → List Nat → Option (List α × List Nat)
  | 0, s => some ([], s)
  | n + 1, s =>
    match rd s with
    | none => none
    | some (a, s2) =>
      match readList rd n s2 with
      | none => none
      | some (as, s3) => some (a :: as, s3)

/-- Modelled from the spec: the complete reader for the documented layout
of §6 — mesh count and mesh records, vertex count and vertex records,
index count and indices. -/
def readOutput (s : List Nat) :
    Option (List Mesh × List Vertex × List Nat) :=
  match readU32 s with
  | none => none
  | some (m, s1) =>
    match readList readMesh m s1 with
    | none => none
    | some (ms, s2) =>
      match readU32 s2 with
      | none => none
      | some (v, s3) =>
        match readList readVertex v s3 with
        | none => none
        | some (vs, s4) =>
          match readU32 s4 with
          | none => none
          | some (i, s5) =>
            match readList readU32 i s5 with
            | none => none
            | some (is, _) => some (ms, vs, is)

/-- The command-line surface seen by main.cpp lines 45-91: whether
`--help`, `--source` and `--out` were supplied. -/
structure Args where
  help : Bool
  source : Option String
  out : Option String
deriving DecidableEq

/-- Observable outcome of a run: exit status, diagnostics printed to
stdout (the advisory per-mesh summary prints of lines 193-209 are not
tracked), whether the flattening/serialization pipeline ran, and the
words written to the output file. -/
structure Outcome where
  status : Nat
  diagnostics : List String
  pipelineRan : Bool
  fileWords : List Nat
deriving DecidableEq

/-- Control flow of `main`, main.cpp lines 45-249.  `--help` prints usage
and returns 0 (lines 65-69); a missing `--source` or `--out` prints its
message, sets `incomplete_arguments` and returns 0 (lines 71-91); a null
scene from the importer prints the assimp error string and returns 0
(lines 108-114); otherwise the scene is flattened and written and main
returns 0.  The import service's result is a parameter.  Undefined
behaviour inside the flattener (out-of-range material index) is `none`. -/
def mainFlow (args : Args) (importRes : Option AiScene) (errString : String)
    (uninit : Vec3) : Option Outcome :=
  if args.help then
    some { status := 0, diagnostics := ["usage"], pipelineRan := false,
           fileWords := [] }
  else
    let srcMsg := if args.source.isNone then ["Source was not set."] else []
    let outMsg := if args.out.isNone then ["Output was not set."] else []
    if args.source.isNone || args.out.isNone then
      some { status := 0, diagnostics := srcMsg ++ outMsg,
             pipelineRan := false, fileWords := [] }
    else
      match importRes with
      | none =>
        some { status := 0,
               diagnostics := ["Failed to load model. Assimp error: " ++ errString],
               pipelineRan := false, fileWords := [] }
      | some scene =>
        match flattenScene uninit scene with
        | none => none
        | some (ms, vs, is) =>
          some { status := 0, diagnostics := [], pipelineRan := true,
                 fileWords := writeOutput ms vs is }

/-- Material 0 of the running example: diffuse colour present, with the
bit patterns of `(1.0f, 0.0f, 0.0f)`. -/
def matRed : AiMaterial := ⟨some ⟨1065353216, 0, 0⟩⟩

/-- Material 1 of the running example: no diffuse-colour entry. -/
def matBlank : AiMaterial := ⟨none⟩

/-- Submesh A of the end-to-end example of spec §8: 4 vertices, 2
triangular faces, material 0. -/
def meshA : AiMesh :=
  { mVertices := [⟨1, 1, 1⟩, ⟨2, 2, 2⟩, ⟨3, 3, 3⟩, ⟨4, 4, 4⟩],
    mFaces := [⟨[0, 1, 2]⟩, ⟨[0, 2, 3]⟩],
    mMaterialIndex := 0 }

/-- Submesh B of the end-to-end example of spec §8: 3 vertices, 1
triangular face and 1 quad face, material 1 (diffuse absent). -/
def meshB : AiMesh :=
  { mVertices := [⟨5, 5, 5⟩, ⟨6, 6, 6⟩, ⟨7, 7, 7⟩],
    mFaces := [⟨[0, 1, 2]⟩, ⟨[0, 1, 2, 0]⟩],
    mMaterialIndex := 1 }

/-- The two-submesh scene of the end-to-end example of spec §8. -/
def exampleScene : AiScene := ⟨[meshA, meshB], [matRed, matBlank]⟩

/-- The mesh records the flattener produces for `exampleScene`. -/
def exMeshes : List Mesh :=
  [⟨⟨1065353216, 0, 0⟩, 0, 4, 0, 6⟩, ⟨vec3zero, 4, 3, 6, 3⟩]

/-- The vertex pool the flattener produces for `exampleScene` (with
`vec3zero` standing for the uninitialized normal memory). -/
def exVerts : List Vertex :=
  [⟨⟨1, 1, 1⟩, vec3zero⟩, ⟨⟨2, 2, 2⟩, vec3zero⟩, ⟨⟨3, 3, 3⟩, vec3zero⟩,
   ⟨⟨4, 4, 4⟩, vec3zero⟩, ⟨⟨5, 5, 5⟩, vec3zero⟩, ⟨⟨6, 6, 6⟩, vec3zero⟩,
   ⟨⟨7, 7, 7⟩, vec3zero⟩]

/-- The index pool the flattener produces for `exampleScene`: submesh B's
triangle is stored as `[6, 7, 8]` (offset by the index-pool size 6), not
as `[4, 5, 6]` (offset by its `vertex_base` 4). -/
def exIdx : List Nat := [0, 1, 2, 0, 2, 3, 6, 7, 8]

/-- The per-mesh relation maintained by the flattener loop: each produced
`Mesh` record sits at base offsets `vb`/`ib`, its counts come from its
source submesh, records are consecutive, and the final offsets are the
total pool sizes `V`/`I`. -/
def chain (s : AiScene) :
    List Mesh → List AiMesh → Nat → Nat → Nat → Nat → Prop
  | [], [], vb, ib, V, I => vb = V ∧ ib = I
  | m :: ms, am :: ams, vb, ib, V, I =>
    (∀ mat, s.mMaterials[am.mMaterialIndex]? = some mat →
      mat.diffuse = none → m.color = vec3zero) ∧
    m.vertex_base = u32 vb ∧
    m.index_base = u32 ib ∧
    m.vertex_count = am.mVertices.length ∧
    m.index_count = u32 (3 * triCount am.mFaces) ∧
    chain s ms ams (vb + am.mVertices.length)
      (ib + 3 * triCount am.mFaces) V I
  | _, _, _, _, _, _ => False

lemma u32_add_left (a b : Nat) : u32 (u32 a + b) = u32 (a + b) := by
  simp [u32, Nat.mod_add_mod]

lemma u32_eq_of_lt {n : Nat} (h : n < 4294967296) : u32 n = n :=
  Nat.mod_eq_of_lt h

lemma loadFaces_cons (b : Nat) (g : AiFace) (rest : List AiFace) :
    loadFaces b (g :: rest) =
      (match g.mIndices with
       | [a, b2, c] =>
         (u32 (b + a) :: u32 (b + b2) :: u32 (b + c) :: (loadFaces b rest).1,
          u32 ((loadFaces b rest).2 + 3))
       | _ => loadFaces b rest) := rfl

lemma triCount_le (fs : List AiFace) : triCount fs ≤ fs.length := by
  induction fs with
  | nil => simp [triCount]
  | cons f rest ih =>
    simp only [triCount, List.length_cons]
    split <;> omega

lemma loadFaces_fst_length (b : Nat) (fs : List AiFace) :
    (loadFaces b fs).1.length = 3 * triCount fs := by
  induction fs with
  | nil => simp [loadFaces, triCount]
  | cons f rest ih =>
    rcases f with ⟨idxs⟩
    rcases idxs with _ | ⟨a, _ | ⟨b2, _ | ⟨c, _ | ⟨d, t⟩⟩⟩⟩ <;>
      simp [loadFaces, triCount, ih]
    omega

lemma loadFaces_snd_eq (b : Nat) (fs : List AiFace) :
    (loadFaces b fs).2 = u32 (3 * triCount fs) := by
  induction fs with
  | nil => simp [loadFaces, triCount, u32]
  | cons f rest ih =>
    rcases f with ⟨idxs⟩
    rcases idxs with _ | ⟨a, _ | ⟨b2, _ | ⟨c, _ | ⟨d, t⟩⟩⟩⟩ <;>
      simp [loadFaces, triCount, ih, u32_add_left]
    have h3 : 3 * (1 + triCount rest) = 3 * triCount rest + 3 := by omega
    rw [h3]

/-- C1: the flattener was meant to store `vertex_base + local_index` for
each triangle corner (the comment at main.cpp line 170 reads "Get number
of vertices from previous meshes"), but line 171 takes `indexes.size()`,
the index-pool size.  On the two-submesh example scene of spec §8,
submesh B has `vertex_base = 4` yet its triangle is appended as
`[6, 7, 8]` instead of `[4, 5, 6]`; the indices 7 and 8 point past the end
of the 7-entry vertex pool, so the stored indices do not reference the
intended vertices. -/
theorem index_offset_uses_index_pool_size :
    flattenScene vec3zero exampleScene = some (exMeshes, exVerts, exIdx) ∧
    exIdx.drop 6 = [6, 7, 8] ∧
    (exMeshes.getD 1 mesh0).vertex_base = 4 ∧
    exIdx.drop 6 ≠ [4 + 0, 4 + 1, 4 + 2] ∧
    exVerts.length = 7 ∧
    ¬ (∀ i ∈ exIdx, i < exVerts.length) := by
  refine ⟨by decide, by decide, by decide, by decide, by decide, by decide⟩

/-- C6: a face whose number of vertex references is not 3 contributes no
entry to the index pool and leaves the `index_count` accumulator
unchanged — removing it from the face list does not change the result of
the face loop at all. -/
theorem nontriangle_face_ignored (b : Nat) (pre post : List AiFace)
    (f : AiFace) (hf : f.mIndices.length ≠ 3) :
    loadFaces b (pre ++ f :: post) = loadFaces b (pre ++ post) := by
  induction pre with
  | nil =>
    rcases f with ⟨idxs⟩
    rcases idxs with _ | ⟨a, _ | ⟨b2, _ | ⟨c, _ | ⟨d, t⟩⟩⟩⟩
    · rfl
    · rfl
    · rfl
    · exact absurd rfl hf
    · rfl
  | cons g pre2 ih =>
    rw [List.cons_append, List.cons_append, loadFaces_cons, loadFaces_cons, ih]

/-- Witness for C6 at a concrete quad face: the quad of submesh B of the
example scene contributes nothing after submesh B's triangle. -/
theorem nontriangle_face_ignored_witness :
    (AiFace.mk [0, 1, 2, 0]).mIndices.length ≠ 3 ∧
    loadFaces 6 ([⟨[0, 1, 2]⟩] ++ ⟨[0, 1, 2, 0]⟩ :: []) =
      loadFaces 6 ([⟨[0, 1, 2]⟩] ++ []) :=
  ⟨by decide, nontriangle_face_ignored 6 [⟨[0, 1, 2]⟩] [] ⟨[0, 1, 2, 0]⟩ (by decide)⟩

lemma flattenMesh_eq (u : Vec3) (s : AiScene) (am : AiMesh)
    (vtx : List Vertex) (idx : List Nat) (c : Vec3)
    (hc : resolveColor s am = some c) :
    flattenMesh u s am vtx idx =
      some ({ color := c, vertex_base := u32 vtx.length,
              vertex_count := am.mVertices.length,
              index_base := u32 idx.length,
              index_count := (loadFaces (u32 idx.length) am.mFaces).2 },
            vtx ++ loadVertices u am,
            idx ++ (loadFaces (u32 idx.length) am.mFaces).1) := by
  simp [flattenMesh, hc]

lemma flattenGo_chain (u : Vec3) (s : AiScene) :
    ∀ (l : List AiMesh) (vtx : List Vertex) (idx : List Nat)
      (ms : List Mesh) (vfin : List Vertex) (ifin : List Nat),
      flattenGo u s l vtx idx = some (ms, vfin, ifin) →
      chain s ms l vtx.length idx.length vfin.length ifin.length := by
  intro l
  induction l with
  | nil =>
    intro vtx idx ms vfin ifin h
    simp only [flattenGo, Option.some.injEq, Prod.mk.injEq] at h
    obtain ⟨h1, h2, h3⟩ := h
    subst h1; subst h2; subst h3
    exact ⟨rfl, rfl⟩
  | cons am rest ih =>
    intro vtx idx ms vfin ifin h
    cases hfm : flattenMesh u s am vtx idx with
    | none =>
      simp only [flattenGo, hfm] at h
      exact Option.noConfusion h
    | some r =>
      obtain ⟨m, vtx2, idx2⟩ := r
      cases hgo : flattenGo u s rest vtx2 idx2 with
      | none =>
        simp only [flattenGo, hfm, hgo] at h
        exact Option.noConfusion h
      | some r2 =>
        obtain ⟨ms2, vfin2, ifin2⟩ := r2
        simp only [flattenGo, hfm, hgo, Option.some.injEq, Prod.mk.injEq] at h
        obtain ⟨hms, hvf, hif⟩ := h
        subst hms; subst hvf; subst hif
        cases hrc : resolveColor s am with
        | none =>
          simp only [flattenMesh, hrc] at hfm
          exact Option.noConfusion hfm
        | some c =>
          rw [flattenMesh_eq u s am vtx idx c hrc] at hfm
          simp only [Option.some.injEq, Prod.mk.injEq] at hfm
          obtain ⟨hm, hv2, hi2⟩ := hfm
          subst hv2; subst hi2
          have htail := ih _ _ ms2 vfin2 ifin2 hgo
          rw [← hm]
          refine ⟨?_, rfl, rfl, rfl, ?_, ?_⟩
          · intro mat hmat hdiff
            simp only [resolveColor, hmat, hdiff, Option.some.injEq] at hrc
            exact hrc.symm
          · exact loadFaces_snd_eq _ _
          · have hlv : (vtx ++ loadVertices u am).length
                = vtx.length + am.mVertices.length := by
              simp [loadVertices]
            have hli : (idx ++ (loadFaces (u32 idx.length) am.mFaces).1).length
                = idx.length + 3 * triCount am.mFaces := by
              simp [loadFaces_fst_length]
            rw [hlv, hli] at htail
            exact htail

lemma chain_le (s : AiScene) :
    ∀ (ms : List Mesh) (ams : List AiMesh) (vb ib V I : Nat),
      chain s ms ams vb ib V I → vb ≤ V ∧ ib ≤ I := by
  intro ms
  induction ms with
  | nil =>
    intro ams vb ib V I h
    cases ams with
    | nil => obtain ⟨h1, h2⟩ := h; omega
    | cons a as => exact h.elim
  | cons m ms2 ih =>
    intro ams vb ib V I h
    cases ams with
    | nil => exact h.elim
    | cons am ams2 =>
      obtain ⟨-, -, -, -, -, htail⟩ := h
      have hle := ih ams2 _ _ V I htail
      omega

lemma chain_head (s : AiScene) (m : Mesh) (ms : List Mesh)
    (ams : List AiMesh) (vb ib V I : Nat)
    (h : chain s (m :: ms) ams vb ib V I) :
    m.vertex_base = u32 vb ∧ m.index_base = u32 ib := by
  cases ams with
  | nil => exact h.elim
  | cons am ams2 => exact ⟨h.2.1, h.2.2.1⟩

lemma chain_tile (s : AiScene) :
    ∀ (ms : List Mesh) (ams : List AiMesh) (vb ib V I : Nat),
      chain s ms ams vb ib V I →
      V < 4294967296 → I < 4294967296 →
      (∀ j, j + 1 < ms.length →
        (ms.getD j mesh0).vertex_base + (ms.getD j mesh0).vertex_count
          = (ms.getD (j + 1) mesh0).vertex_base ∧
        (ms.getD j mesh0).index_base + (ms.getD j mesh0).index_count
          = (ms.getD (j + 1) mesh0).index_base) ∧
      (ms ≠ [] →
        (ms.getD (ms.length - 1) mesh0).vertex_base
          + (ms.getD (ms.length - 1) mesh0).vertex_count = V ∧
        (ms.getD (ms.length - 1) mesh0).index_base
          + (ms.getD (ms.length - 1) mesh0).index_count = I) := by
  intro ms
  induction ms with
  | nil =>
    intro ams vb ib V I h hV hI
    constructor
    · intro j hj
      simp at hj
    · intro hne
      exact absurd rfl hne
  | cons m ms2 ih =>
    intro ams vb ib V I h hV hI
    cases ams with
    | nil => exact h.elim
    | cons am ams2 =>
      obtain ⟨hcol, hvb, hib, hvc, hic, htail⟩ := h
      have hle := chain_le s ms2 ams2 _ _ V I htail
      have hvb2 : m.vertex_base = vb := by
        rw [hvb]; exact u32_eq_of_lt (by omega)
      have hib2 : m.index_base = ib := by
        rw [hib]; exact u32_eq_of_lt (by omega)
      have hic2 : m.index_count = 3 * triCount am.mFaces := by
        rw [hic]; exact u32_eq_of_lt (by omega)
      cases ms2 with
      | nil =>
        cases ams2 with
        | cons a as => exact htail.elim
        | nil =>
          obtain ⟨hV1, hI1⟩ := htail
          constructor
          · intro j hj
            simp at hj
          · intro _
            simp only [List.length_singleton, Nat.sub_self, List.getD_cons_zero]
            rw [hvb2, hib2, hvc, hic2]
            omega
      | cons m2 ms3 =>
        have IH := ih ams2 _ _ V I htail hV hI
        have hh := chain_head s m2 ms3 ams2 _ _ V I htail
        have hvb3 : m2.vertex_base = vb + am.mVertices.length := by
          rw [hh.1]; exact u32_eq_of_lt (by omega)
        have hib3 : m2.index_base = ib + 3 * triCount am.mFaces := by
          rw [hh.2]; exact u32_eq_of_lt (by omega)
        constructor
        · intro j hj
          cases j with
          | zero =>
            simp only [List.getD_cons_zero, List.getD_cons_succ]
            rw [hvb2, hib2, hvc, hic2, hvb3, hib3]
            exact ⟨rfl, rfl⟩
          | succ j2 =>
            have hj2 : j2 + 1 < (m2 :: ms3).length := by
              simpa using hj
            have := IH.1 j2 hj2
            simpa [List.getD_cons_succ] using this
        · intro _
          have := IH.2 (by simp)
          have hlen : (m :: m2 :: ms3).length - 1
              = ((m2 :: ms3).length - 1) + 1 := by
            simp
          rw [hlen, List.getD_cons_succ]
          exact this

/-- C3: for every successful flattening whose total vertex and index
counts fit in 32 bits, each mesh record's `vertex_base + vertex_count`
equals the next record's `vertex_base` (or the total vertex count for the
last record), and likewise for the index ranges — the ranges tile both
pools contiguously in traversal order. -/
theorem mesh_ranges_tile (u : Vec3) (s : AiScene) (ms : List Mesh)
    (vs : List Vertex) (is : List Nat)
    (h : flattenScene u s = some (ms, vs, is))
    (hV : vs.length < 4294967296) (hI : is.length < 4294967296) :
    (∀ j, j + 1 < ms.length →
      (ms.getD j mesh0).vertex_base + (ms.getD j mesh0).vertex_count
        = (ms.getD (j + 1) mesh0).vertex_base ∧
      (ms.getD j mesh0).index_base + (ms.getD j mesh0).index_count
        = (ms.getD (j + 1) mesh0).index_base) ∧
    (ms ≠ [] →
      (ms.getD (ms.length - 1) mesh0).vertex_base
        + (ms.getD (ms.length - 1) mesh0).vertex_count = vs.length ∧
      (ms.getD (ms.length - 1) mesh0).index_base
        + (ms.getD (ms.length - 1) mesh0).index_count = is.length) := by
  have hc := flattenGo_chain u s s.mMeshes [] [] ms vs is h
  exact chain_tile s ms s.mMeshes 0 0 vs.length is.length hc hV hI

/-- Witness for C3 on the two-submesh example scene of spec §8. -/
theorem mesh_ranges_tile_witness :
    (flattenScene vec3zero exampleScene = some (exMeshes, exVerts, exIdx) ∧
     exVerts.length < 4294967296 ∧ exIdx.length < 4294967296) ∧
    ((∀ j, j + 1 < exMeshes.length →
      (exMeshes.getD j mesh0).vertex_base + (exMeshes.getD j mesh0).vertex_count
        = (exMeshes.getD (j + 1) mesh0).vertex_base ∧
      (exMeshes.getD j mesh0).index_base + (exMeshes.getD j mesh0).index_count
        = (exMeshes.getD (j + 1) mesh0).index_base) ∧
    (exMeshes ≠ [] →
      (exMeshes.getD (exMeshes.length - 1) mesh0).vertex_base
        + (exMeshes.getD (exMeshes.length - 1) mesh0).vertex_count = exVerts.length ∧
      (exMeshes.getD (exMeshes.length - 1) mesh0).index_base
        + (exMeshes.getD (exMeshes.length - 1) mesh0).index_count = exIdx.length)) :=
  ⟨⟨by decide, by decide, by decide⟩,
   mesh_ranges_tile vec3zero exampleScene exMeshes exVerts exIdx
     (by decide) (by decide) (by decide)⟩

lemma chain_index_bound (s : AiScene) :
    ∀ (ms : List Mesh) (ams : List AiMesh) (vb ib V I : Nat),
      chain s ms ams vb ib V I → I < 4294967296 →
      List.Forall₂ (fun m am => m.index_count % 3 = 0 ∧
        m.index_count ≤ 3 * am.mFaces.length) ms ams := by
  intro ms
  induction ms with
  | nil =>
    intro ams vb ib V I h hI
    cases ams with
    | nil => exact List.Forall₂.nil
    | cons a as => exact h.elim
  | cons m ms2 ih =>
    intro ams vb ib V I h hI
    cases ams with
    | nil => exact h.elim
    | cons am ams2 =>
      obtain ⟨-, -, -, -, hic, htail⟩ := h
      have hle := chain_le s ms2 ams2 _ _ V I htail
      have hic2 : m.index_count = 3 * triCount am.mFaces := by
        rw [hic]; exact u32_eq_of_lt (by omega)
      have ht := triCount_le am.mFaces
      exact List.Forall₂.cons ⟨by omega, by omega⟩ (ih ams2 _ _ V I htail hI)

/-- C7: for every successful flattening whose total index count fits in
32 bits, every mesh record's `index_count` is a multiple of 3 and never
exceeds three times the number of faces of its source submesh. -/
theorem index_count_multiple_of_three (u : Vec3) (s : AiScene)
    (ms : List Mesh) (vs : List Vertex) (is : List Nat)
    (h : flattenScene u s = some (ms, vs, is))
    (hI : is.length < 4294967296) :
    List.Forall₂ (fun m am => m.index_count % 3 = 0 ∧
      m.index_count ≤ 3 * am.mFaces.length) ms s.mMeshes := by
  have hc := flattenGo_chain u s s.mMeshes [] [] ms vs is h
  exact chain_index_bound s ms s.mMeshes 0 0 vs.length is.length hc hI

/-- Witness for C7 on the example scene: submesh B has 2 faces but only
one triangle, so its record gets `index_count = 3 ≤ 6`. -/
theorem index_count_multiple_of_three_witness :
    (flattenScene vec3zero exampleScene = some (exMeshes, exVerts, exIdx) ∧
     exIdx.length < 4294967296) ∧
    List.Forall₂ (fun m am => m.index_count % 3 = 0 ∧
      m.index_count ≤ 3 * am.mFaces.length) exMeshes exampleScene.mMeshes :=
  ⟨⟨by decide, by decide⟩,
   index_count_multiple_of_three vec3zero exampleScene exMeshes exVerts exIdx
     (by decide) (by decide)⟩

lemma chain_color (s : AiScene) :
    ∀ (ms : List Mesh) (ams : List AiMesh) (vb ib V I : Nat),
      chain s ms ams vb ib V I →
      List.Forall₂ (fun m am => ∀ mat,
        s.mMaterials[am.mMaterialIndex]? = some mat →
        mat.diffuse = none → m.color = vec3zero) ms ams := by
  intro ms
  induction ms with
  | nil =>
    intro ams vb ib V I h
    cases ams with
    | nil => exact List.Forall₂.nil
    | cons a as => exact h.elim
  | cons m ms2 ih =>
    intro ams vb ib V I h
    cases ams with
    | nil => exact h.elim
    | cons am ams2 =>
      obtain ⟨hcol, -, -, -, -, htail⟩ := h
      exact List.Forall₂.cons hcol (ih ams2 _ _ V I htail)

/-- C8: a submesh whose material exists but has no diffuse-colour entry
gets the colour `(0,0,0)` in its mesh record, and the failed lookup does
not abort the resolution (it still returns a colour, black). -/
theorem missing_diffuse_black (u : Vec3) (s : AiScene) (ms : List Mesh)
    (vs : List Vertex) (is : List Nat)
    (h : flattenScene u s = some (ms, vs, is)) :
    List.Forall₂ (fun m am => ∀ mat,
      s.mMaterials[am.mMaterialIndex]? = some mat →
      mat.diffuse = none → m.color = vec3zero) ms s.mMeshes ∧
    ∀ (am : AiMesh) (mat : AiMaterial),
      s.mMaterials[am.mMaterialIndex]? = some mat →
      mat.diffuse = none → resolveColor s am = some vec3zero := by
  constructor
  · exact chain_color s ms s.mMeshes 0 0 vs.length is.length
      (flattenGo_chain u s s.mMeshes [] [] ms vs is h)
  · intro am mat hm hd
    simp [resolveColor, hm, hd]

/-- Witness for C8: submesh B of the example scene uses material 1, which
has no diffuse entry, and its record's colour is black. -/
theorem missing_diffuse_black_witness :
    flattenScene vec3zero exampleScene = some (exMeshes, exVerts, exIdx) ∧
    (List.Forall₂ (fun m am => ∀ mat,
      exampleScene.mMaterials[am.mMaterialIndex]? = some mat →
      mat.diffuse = none → m.color = vec3zero) exMeshes exampleScene.mMeshes ∧
    ∀ (am : AiMesh) (mat : AiMaterial),
      exampleScene.mMaterials[am.mMaterialIndex]? = some mat →
      mat.diffuse = none → resolveColor exampleScene am = some vec3zero) :=
  ⟨by decide,
   missing_diffuse_black vec3zero exampleScene exMeshes exVerts exIdx (by decide)⟩

lemma resolveColor_some (s : AiScene) (am : AiMesh)
    (h : am.mMaterialIndex < s.mMaterials.length) :
    ∃ c, resolveColor s am = some c := by
  have hg : s.mMaterials[am.mMaterialIndex]? = some s.mMaterials[am.mMaterialIndex] :=
    List.getElem?_eq_getElem h
  cases hd : s.mMaterials[am.mMaterialIndex].diffuse with
  | none => exact ⟨vec3zero, by simp [resolveColor, hg, hd]⟩
  | some c => exact ⟨c, by simp [resolveColor, hg, hd]⟩

lemma flattenGo_total (u : Vec3) (s : AiScene) :
    ∀ (l : List AiMesh),
      (∀ am ∈ l, am.mMaterialIndex < s.mMaterials.length) →
      ∀ (vtx : List Vertex) (idx : List Nat),
        ∃ r, flattenGo u s l vtx idx = some r := by
  intro l
  induction l with
  | nil => exact fun _ vtx idx => ⟨([], vtx, idx), rfl⟩
  | cons am rest ih =>
    intro hall vtx idx
    obtain ⟨c, hc⟩ := resolveColor_some s am (hall am (by simp))
    obtain ⟨⟨ms, vfin, ifin⟩, hr⟩ :=
      ih (fun a ha => hall a (by simp [ha]))
        (vtx ++ loadVertices u am)
        (idx ++ (loadFaces (u32 idx.length) am.mFaces).1)
    refine ⟨({ color := c, vertex_base := u32 vtx.length,
               vertex_count := am.mVertices.length,
               index_base := u32 idx.length,
               index_count := (loadFaces (u32 idx.length) am.mFaces).2 } :: ms,
             vfin, ifin), ?_⟩
    simp only [flattenGo, flattenMesh_eq u s am vtx idx c hc, hr]

/-- C10: the material-table access has no bounds check, but under the
precondition that every submesh's material index is within the material
table, the lookup succeeds for every submesh, colour resolution never
aborts, and the whole flattening succeeds. -/
theorem material_access_in_bounds (u : Vec3) (s : AiScene)
    (h : ∀ am ∈ s.mMeshes, am.mMaterialIndex < s.mMaterials.length) :
    (∀ am ∈ s.mMeshes, (s.mMaterials[am.mMaterialIndex]?).isSome ∧
      (resolveColor s am).isSome) ∧
    ∃ r, flattenScene u s = some r := by
  constructor
  · intro am ham
    have hlt := h am ham
    constructor
    · rw [List.getElem?_eq_getElem hlt]; rfl
    · obtain ⟨c, hc⟩ := resolveColor_some s am hlt
      rw [hc]; rfl
  · exact flattenGo_total u s s.mMeshes h [] []

/-- Witness for C10: both submeshes of the example scene have material
indices 0 and 1, within the 2-entry material table. -/
theorem material_access_in_bounds_witness :
    (∀ am ∈ exampleScene.mMeshes,
      am.mMaterialIndex < exampleScene.mMaterials.length) ∧
    ((∀ am ∈ exampleScene.mMeshes,
      (exampleScene.mMaterials[am.mMaterialIndex]?).isSome ∧
      (resolveColor exampleScene am).isSome) ∧
    ∃ r, flattenScene vec3zero exampleScene = some r) :=
  ⟨by decide, material_access_in_bounds vec3zero exampleScene (by decide)⟩

lemma flatten_writeMesh_length (ms : List Mesh) :
    ((ms.map writeMesh).flatten).length = 7 * ms.length := by
  induction ms with
  | nil => simp
  | cons m t ih =>
    rw [List.map_cons, List.flatten_cons, List.length_append, ih,
      List.length_cons]
    show 7 + 7 * t.length = 7 * (t.length + 1)
    omega

lemma flatten_writeVertex_length (vs : List Vertex) :
    ((vs.map writeVertex).flatten).length = 6 * vs.length := by
  induction vs with
  | nil => simp
  | cons v t ih =>
    rw [List.map_cons, List.flatten_cons, List.length_append, ih,
      List.length_cons]
    show 6 + 6 * t.length = 6 * (t.length + 1)
    omega

/-- C2: the writer emits a u32 mesh count, then the mesh records (colour
r,g,b then vertex_base, vertex_count, index_base, index_count — 7 words
each), then a u32 vertex count, then the vertex records (position then
normal — 6 words each), then a u32 index count, then the indices; every
count sits immediately before the records it counts, at stream offsets
`0`, `1 + 7·M` and `2 + 7·M + 6·V`, even when it is zero. -/
theorem output_layout (ms : List Mesh) (vs : List Vertex) (is : List Nat)
    (hM : ms.length < 4294967296) (hV : vs.length < 4294967296)
    (hI : is.length < 4294967296) :
    writeOutput ms vs is
      = ms.length :: (ms.map writeMesh).flatten ++
        vs.length :: (vs.map writeVertex).flatten ++
        is.length :: is ∧
    (∀ b ∈ ms.map writeMesh, b.length = 7) ∧
    (∀ b ∈ vs.map writeVertex, b.length = 6) ∧
    (writeOutput ms vs is)[0]? = some ms.length ∧
    (writeOutput ms vs is)[1 + 7 * ms.length]? = some vs.length ∧
    (writeOutput ms vs is)[2 + 7 * ms.length + 6 * vs.length]? = some is.length ∧
    (writeOutput ms vs is).length
      = 3 + 7 * ms.length + 6 * vs.length + is.length ∧
    (writeOutput ms vs is).drop (3 + 7 * ms.length + 6 * vs.length) = is := by
  have hA := flatten_writeMesh_length ms
  have hB := flatten_writeVertex_length vs
  have e1 : writeOutput ms vs is
      = ms.length :: ((ms.map writeMesh).flatten ++
        (vs.length :: ((vs.map writeVertex).flatten ++
        (is.length :: is)))) := by
    simp [writeOutput, u32, Nat.mod_eq_of_lt hM, Nat.mod_eq_of_lt hV,
      Nat.mod_eq_of_lt hI]
  refine ⟨?_, ?_, ?_, ?_, ?_, ?_, ?_, ?_⟩
  · rw [e1]
    simp
  · intro b hb
    rw [List.mem_map] at hb
    obtain ⟨m, -, rfl⟩ := hb
    rfl
  · intro b hb
    rw [List.mem_map] at hb
    obtain ⟨v, -, rfl⟩ := hb
    rfl
  · rw [e1, List.getElem?_cons_zero]
  · rw [e1]
    have h1 : 1 + 7 * ms.length = 7 * ms.length + 1 := by omega
    rw [h1, List.getElem?_cons_succ, List.getElem?_append_right hA.le]
    have h2 : 7 * ms.length - ((ms.map writeMesh).flatten).length = 0 := by
      omega
    rw [h2, List.getElem?_cons_zero]
  · rw [e1]
    have h1 : 2 + 7 * ms.length + 6 * vs.length
        = (1 + 7 * ms.length + 6 * vs.length) + 1 := by omega
    have h2 : ((ms.map writeMesh).flatten).length
        ≤ 1 + 7 * ms.length + 6 * vs.length := by omega
    rw [h1, List.getElem?_cons_succ, List.getElem?_append_right h2]
    have h3 : 1 + 7 * ms.length + 6 * vs.length
        - ((ms.map writeMesh).flatten).length = 6 * vs.length + 1 := by omega
    rw [h3, List.getElem?_cons_succ, List.getElem?_append_right hB.le]
    have h4 : 6 * vs.length - ((vs.map writeVertex).flatten).length = 0 := by
      omega
    rw [h4, List.getElem?_cons_zero]
  · rw [e1]
    simp only [List.length_cons, List.length_append, hA, hB]
    omega
  · rw [e1]
    have e2 : ms.length :: ((ms.map writeMesh).flatten ++
        (vs.length :: ((vs.map writeVertex).flatten ++ (is.length :: is))))
        = (ms.length :: ((ms.map writeMesh).flatten ++
           (vs.length :: ((vs.map writeVertex).flatten ++ [is.length])))) ++ is := by
      simp
    rw [e2]
    refine List.drop_left' ?_
    simp only [List.length_append, List.length_cons, List.length_nil,
      hA, hB]
    omega

/-- Witness for C2 with the empty scene: all three counts are zero and
each is still emitted, giving the 3-word stream `[0, 0, 0]`. -/
theorem output_layout_witness :
    (([] : List Mesh).length < 4294967296 ∧
     ([] : List Vertex).length < 4294967296 ∧
     ([] : List Nat).length < 4294967296) ∧
    (writeOutput [] [] []
      = ([] : List Mesh).length :: (([] : List Mesh).map writeMesh).flatten ++
        ([] : List Vertex).length :: (([] : List Vertex).map writeVertex).flatten ++
        ([] : List Nat).length :: ([] : List Nat) ∧
    (∀ b ∈ ([] : List Mesh).map writeMesh, b.length = 7) ∧
    (∀ b ∈ ([] : List Vertex).map writeVertex, b.length = 6) ∧
    (writeOutput [] [] [])[0]? = some ([] : List Mesh).length ∧
    (writeOutput [] [] [])[1 + 7 * ([] : List Mesh).length]?
      = some ([] : List Vertex).length ∧
    (writeOutput [] [] [])[2 + 7 * ([] : List Mesh).length
      + 6 * ([] : List Vertex).length]? = some ([] : List Nat).length ∧
    (writeOutput [] [] []).length
      = 3 + 7 * ([] : List Mesh).length + 6 * ([] : List Vertex).length
        + ([] : List Nat).length ∧
    (writeOutput [] [] []).drop (3 + 7 * ([] : List Mesh).length
      + 6 * ([] : List Vertex).length) = ([] : List Nat)) :=
  ⟨⟨by decide, by decide, by decide⟩,
   output_layout [] [] [] (by decide) (by decide) (by decide)⟩

lemma readList_writeMesh (ms : List Mesh) (rest : List Nat) :
    readList readMesh ms.length ((ms.map writeMesh).flatten ++ rest)
      = some (ms, rest) := by
  induction ms with
  | nil => rfl
  | cons m t ih =>
    obtain ⟨⟨cx, cy, cz⟩, vb, vc, ib, ic⟩ := m
    simp [readList, readMesh, writeMesh, ih]

lemma readList_writeVertex (vs : List Vertex) (rest : List Nat) :
    readList readVertex vs.length ((vs.map writeVertex).flatten ++ rest)
      = some (vs, rest) := by
  induction vs with
  | nil => rfl
  | cons v t ih =>
    obtain ⟨⟨px, py, pz⟩, ⟨nx, ny, nz⟩⟩ := v
    simp [readList, readVertex, writeVertex, ih]

lemma readList_u32 (is rest : List Nat) :
    readList readU32 is.length (is ++ rest) = some (is, rest) := by
  induction is with
  | nil => rfl
  | cons i t ih => simp [readList, readU32, ih]

lemma readList_u32_all (is : List Nat) :
    readList readU32 is.length is = some (is, []) := by
  have h := readList_u32 is []
  simpa using h

/-- C4: reading the written stream back per the documented layout
reproduces the mesh records, the vertex records and the index values
exactly, word-for-word (words are the 32-bit bit patterns, so floats are
compared bit-for-bit) — write-then-read is lossless. -/
theorem write_read_roundtrip (ms : List Mesh) (vs : List Vertex)
    (is : List Nat) (hM : ms.length < 4294967296)
    (hV : vs.length < 4294967296) (hI : is.length < 4294967296) :
    readOutput (writeOutput ms vs is) = some (ms, vs, is) := by
  have e1 : writeOutput ms vs is
      = ms.length :: (ms.map writeMesh).flatten ++
        vs.length :: (vs.map writeVertex).flatten ++
        is.length :: is := by
    simp [writeOutput, u32, Nat.mod_eq_of_lt hM, Nat.mod_eq_of_lt hV,
      Nat.mod_eq_of_lt hI]
  rw [e1]
  simp [readOutput, readU32, readList_writeMesh, readList_writeVertex,
    readList_u32_all]

/-- Witness for C4 on the flattener output for the example scene. -/
theorem write_read_roundtrip_witness :
    (exMeshes.length < 4294967296 ∧ exVerts.length < 4294967296 ∧
     exIdx.length < 4294967296) ∧
    readOutput (writeOutput exMeshes exVerts exIdx)
      = some (exMeshes, exVerts, exIdx) :=
  ⟨⟨by decide, by decide, by decide⟩,
   write_read_roundtrip exMeshes exVerts exIdx
     (by decide) (by decide) (by decide)⟩

/-- C9: without `--help`, a missing `--source` or `--out` makes the
program print a diagnostic and exit with status 0 without running the
pipeline; and with both flags present, a failed import (null scene) makes
it print the service's error string and exit with status 0, again without
running the pipeline. -/
theorem error_paths_exit_zero (args : Args) (importRes : Option AiScene)
    (errString : String) (u : Vec3) (hh : args.help = false) :
    (args.source = none ∨ args.out = none →
      ∃ o, mainFlow args importRes errString u = some o ∧
        o.status = 0 ∧ o.pipelineRan = false ∧ o.diagnostics ≠ []) ∧
    (∀ src out, args.source = some src → args.out = some out →
      importRes = none →
      ∃ o, mainFlow args importRes errString u = some o ∧
        o.status = 0 ∧ o.pipelineRan = false ∧
        o.diagnostics
          = ["Failed to load model. Assimp error: " ++ errString]) := by
  constructor
  · intro hmiss
    have hinc : (args.source.isNone || args.out.isNone) = true := by
      rcases hmiss with h | h <;> simp [h]
    refine ⟨{ status := 0,
              diagnostics :=
                (if args.source.isNone then ["Source was not set."] else []) ++
                (if args.out.isNone then ["Output was not set."] else []),
              pipelineRan := false, fileWords := [] }, ?_, rfl, rfl, ?_⟩
    · simp [mainFlow, hh, hinc]
    · rcases hmiss with h | h
      · intro hc
        simp [h] at hc
      · intro hc
        simp [h] at hc
  · intro src out hsrc hout himp
    subst himp
    refine ⟨{ status := 0,
              diagnostics :=
                ["Failed to load model. Assimp error: " ++ errString],
              pipelineRan := false, fileWords := [] }, ?_, rfl, rfl, rfl⟩
    simp [mainFlow, hh, hsrc, hout]

/-- An invocation with `--out` but no `--source`. -/
def argsMissing : Args := ⟨false, none, some "model.bin"⟩

/-- An invocation with both required flags present. -/
def argsFull : Args := ⟨false, some "model.obj", some "model.bin"⟩

/-- Witness for C9: one invocation missing `--source`, and one complete
invocation whose import fails. -/
theorem error_paths_exit_zero_witness :
    (argsMissing.help = false ∧
      ((argsMissing.source = none ∨ argsMissing.out = none →
        ∃ o, mainFlow argsMissing none "err" vec3zero = some o ∧
          o.status = 0 ∧ o.pipelineRan = false ∧ o.diagnostics ≠ []) ∧
      (∀ src out, argsMissing.source = some src →
        argsMissing.out = some out → (none : Option AiScene) = none →
        ∃ o, mainFlow argsMissing none "err" vec3zero = some o ∧
          o.status = 0 ∧ o.pipelineRan = false ∧
          o.diagnostics = ["Failed to load model. Assimp error: " ++ "err"]))) ∧
    (argsFull.help = false ∧
      ((argsFull.source = none ∨ argsFull.out = none →
        ∃ o, mainFlow argsFull none "err" vec3zero = some o ∧
          o.status = 0 ∧ o.pipelineRan = false ∧ o.diagnostics ≠ []) ∧
      (∀ src out, argsFull.source = some src →
        argsFull.out = some out → (none : Option AiScene) = none →
        ∃ o, mainFlow argsFull none "err" vec3zero = some o ∧
          o.status = 0 ∧ o.pipelineRan = false ∧
          o.diagnostics = ["Failed to load model. Assimp error: " ++ "err"]))) :=
  ⟨⟨rfl, error_paths_exit_zero argsMissing none "err" vec3zero rfl⟩,
   ⟨rfl, error_paths_exit_zero argsFull none "err" vec3zero rfl⟩⟩

end ImportMesh
